import Mathlib

/-
Verification development for the schedule-automation pipeline in
`src/app.py` (Streamlit + Gemini + Google Calendar/Tasks).

The Python program is shallowly embedded: JSON-decoded Python values become
the inductive `PyVal`; the stdlib `json.loads` is modelled as an abstract
decoder parameter `dec : String -> Except String PyVal`; network and backend
effects are modelled as oracle parameters (`HttpOutcome`, `Services`);
`datetime.fromisoformat`, `datetime.isoformat` and Python truthiness are
implemented directly.  `st.stop()` is a non-catchable control-flow halt
(Streamlit's StopException derives from BaseException, so the
`except Exception` handlers in the script do not catch it).
-/

/-- Values produced by decoding JSON in Python: None, bool, number, string,
list, dict (association list of string keys, in insertion order).  JSON
number semantics are not load-bearing for any property proved here, so
numbers are carried as integers. -/
inductive PyVal where
  | none : PyVal
  | bool : Bool → PyVal
  | num : Int → PyVal
  | str : String → PyVal
  | arr : List PyVal → PyVal
  | obj : List (String × PyVal) → PyVal

/-- Python truthiness of a decoded JSON value: `None`, `False`, `0`, `""`,
`[]` and `\x7b\x7d` are falsy, everything else truthy. -/
def pyTruthy : PyVal → Bool
  | .none => false
  | .bool b => b
  | .num n => n != 0
  | .str s => !(s = "")
  | .arr xs => !xs.isEmpty
  | .obj fs => !fs.isEmpty

/-- First binding of a key in an association list (Python dict lookup). -/
def pyLookup (fs : List (String × PyVal)) (k : String) : Option PyVal :=
  match fs with
  | [] => Option.none
  | (k2, v) :: rest => if k2 = k then Option.some v else pyLookup rest k

/-- Python `d[k]` subscript on a decoded value: dict lookup (KeyError when
missing), TypeError on any non-dict. -/
def pySubscriptKey (v : PyVal) (k : String) : Except String PyVal :=
  match v with
  | .obj fs =>
    match pyLookup fs k with
    | Option.some w => Except.ok w
    | Option.none => Except.error ("KeyError: " ++ k)
  | _ => Except.error "TypeError: value is not subscriptable by string"

/-- Python `v[i]` subscript by integer: list index (IndexError when out of
range), single character of a string, KeyError on a dict with string keys,
TypeError otherwise. -/
def pySubscriptIdx (v : PyVal) (i : Nat) : Except String PyVal :=
  match v with
  | .arr xs =>
    match xs.get? i with
    | Option.some w => Except.ok w
    | Option.none => Except.error "IndexError: list index out of range"
  | .str s =>
    match s.toList.get? i with
    | Option.some c => Except.ok (.str (String.mk [c]))
    | Option.none => Except.error "IndexError: string index out of range"
  | .obj _ => Except.error "KeyError: integer key on a string-keyed dict"
  | _ => Except.error "TypeError: value is not subscriptable"

/-- Python `d.get(k)` on a dict, `None` when the key is missing.  Calling
`.get` on a non-dict raises AttributeError, reported as an error. -/
def pyGetMethod (v : PyVal) (k : String) : Except String PyVal :=
  match v with
  | .obj fs => Except.ok ((pyLookup fs k).getD .none)
  | _ => Except.error "AttributeError: object has no attribute get"

/-- Python `d.get(k, default)` restricted to a dict field list. -/
def pyGetD (fs : List (String × PyVal)) (k : String) (dflt : PyVal) : PyVal :=
  (pyLookup fs k).getD dflt

/-- Python `for x in v`: lists iterate elements, strings iterate single
characters, dicts iterate keys; other values raise TypeError. -/
def pyIter : PyVal → Except String (List PyVal)
  | .arr xs => Except.ok xs
  | .str s => Except.ok (s.toList.map (fun c => .str (String.mk [c])))
  | .obj fs => Except.ok (fs.map (fun p => .str p.1))
  | _ => Except.error "TypeError: object is not iterable"

/-- Model of Python `datetime.datetime`: a wall-clock timestamp with an
optional fixed UTC offset in minutes (aware when present, naive when not). -/
structure PyDateTime where
  year : Nat
  month : Nat
  day : Nat
  hour : Nat
  minute : Nat
  second : Nat
  micro : Nat
  tzOffset : Option Int
deriving DecidableEq, Repr

/-- Parse exactly `n` decimal digits, accumulating their value. -/
def parseDigitsAux : Nat → Nat → List Char → Option (Nat × List Char)
  | 0, acc, cs => Option.some (acc, cs)
  | _ + 1, _, [] => Option.none
  | n + 1, acc, c :: cs =>
    if c.isDigit then parseDigitsAux n (acc * 10 + (c.toNat - 48)) cs
    else Option.none

def parseDigits (n : Nat) (cs : List Char) : Option (Nat × List Char) :=
  parseDigitsAux n 0 cs

def expectChar (c : Char) : List Char → Option (List Char)
  | [] => Option.none
  | d :: cs => if d = c then Option.some cs else Option.none

def isLeapYear (y : Nat) : Bool :=
  (y % 4 = 0 && !(y % 100 = 0)) || y % 400 = 0

def daysInMonth (y m : Nat) : Nat :=
  if m = 2 then (if isLeapYear y then 29 else 28)
  else if m = 4 ∨ m = 6 ∨ m = 9 ∨ m = 11 then 30
  else 31

/-- Fractional-second part: 1 to 6 digits after a dot, scaled to
microseconds. -/
def parseFracAux : Nat → Nat → Nat → List Char → Option (Nat × List Char)
  | 0, acc, _, cs => if cs.headD ' ' |>.isDigit then Option.none else Option.some (acc, cs)
  | n + 1, acc, taken, cs =>
    match cs with
    | c :: rest =>
      if c.isDigit then parseFracAux n (acc * 10 + (c.toNat - 48)) (taken + 1) rest
      else if taken = 0 then Option.none
      else Option.some (acc * 10 ^ (n + 1), cs)
    | [] => if taken = 0 then Option.none else Option.some (acc * 10 ^ (n + 1), [])

/-- Optional `:SS[.ffffff]` part of an ISO time. -/
def parseSecondPart : List Char → Option (Nat × Nat × List Char)
  | ':' :: cs => do
    let (s, cs2) ← parseDigits 2 cs
    if s ≤ 59 then
      match cs2 with
      | '.' :: cs3 => do
        let (micro, cs4) ← parseFracAux 6 0 0 cs3
        Option.some (s, micro, cs4)
      | _ => Option.some (s, 0, cs2)
    else Option.none
  | cs => Option.some (0, 0, cs)

/-- Optional trailing UTC offset: nothing, `Z`, or `+HH:MM` / `-HH:MM`. -/
def parseTz : List Char → Option (Option Int)
  | [] => Option.some Option.none
  | ['Z'] => Option.some (Option.some 0)
  | c :: cs =>
    if c = '+' ∨ c = '-' then do
      let (oh, cs2) ← parseDigits 2 cs
      let cs3 ← expectChar ':' cs2
      let (om, cs4) ← parseDigits 2 cs3
      if cs4 = [] ∧ oh ≤ 23 ∧ om ≤ 59 then
        let total : Int := (oh * 60 + om : Nat)
        Option.some (Option.some (if c = '-' then -total else total))
      else Option.none
    else Option.none

/-- Model of `datetime.fromisoformat` on the grammar exercised by this
program: `YYYY-MM-DD`, optionally followed by a `T` or space separator and
`HH:MM[:SS[.ffffff]]`, optionally followed by `Z` or a `+HH:MM` / `-HH:MM`
offset, with calendar-validated fields. -/
def fromisoformatChars (cs : List Char) : Option PyDateTime := do
  let (y, cs) ← parseDigits 4 cs
  let cs ← expectChar '-' cs
  let (mo, cs) ← parseDigits 2 cs
  let cs ← expectChar '-' cs
  let (d, cs) ← parseDigits 2 cs
  if 1 ≤ y ∧ 1 ≤ mo ∧ mo ≤ 12 ∧ 1 ≤ d ∧ d ≤ daysInMonth y mo then
    match cs with
    | [] => Option.some ⟨y, mo, d, 0, 0, 0, 0, Option.none⟩
    | sep :: rest =>
      if sep = 'T' ∨ sep = ' ' then do
        let (h, cs) ← parseDigits 2 rest
        let cs ← expectChar ':' cs
        let (mi, cs) ← parseDigits 2 cs
        let (s, micro, cs) ← parseSecondPart cs
        let tz ← parseTz cs
        if h ≤ 23 ∧ mi ≤ 59 then Option.some ⟨y, mo, d, h, mi, s, micro, tz⟩
        else Option.none
      else Option.none
  else Option.none

def fromisoformatStr (s : String) : Except String PyDateTime :=
  match fromisoformatChars s.toList with
  | Option.some dt => Except.ok dt
  | Option.none => Except.error ("ValueError: Invalid isoformat string: " ++ s)

/-- `datetime.fromisoformat` applied to a decoded JSON value: a TypeError
unless the argument is a string. -/
def fromisoformatVal (v : PyVal) : Except String PyDateTime :=
  match v with
  | .str s => fromisoformatStr s
  | _ => Except.error "TypeError: fromisoformat: argument must be str"

def padNat (width n : Nat) : String :=
  let ds := Nat.toDigits 10 n
  String.mk (List.replicate (width - ds.length) '0' ++ ds)

def formatOffset : Option Int → String
  | Option.none => ""
  | Option.some o =>
    let a := o.natAbs
    (if o < 0 then "-" else "+") ++ padNat 2 (a / 60) ++ ":" ++ padNat 2 (a % 60)

/-- Model of `datetime.isoformat()`: `YYYY-MM-DDTHH:MM:SS`, microseconds
only when non-zero, trailing offset only when aware. -/
def isoformat (dt : PyDateTime) : String :=
  padNat 4 dt.year ++ "-" ++ padNat 2 dt.month ++ "-" ++ padNat 2 dt.day ++ "T" ++
  padNat 2 dt.hour ++ ":" ++ padNat 2 dt.minute ++ ":" ++ padNat 2 dt.second ++
  (if dt.micro = 0 then "" else "." ++ padNat 6 dt.micro) ++
  formatOffset dt.tzOffset

/-- Days since 0000-03-01 of a civil date (valid for year ≥ 1). -/
def daysFromCivilNat (y m d : Nat) : Nat :=
  let yr := if m ≤ 2 then y - 1 else y
  let era := yr / 400
  let yoe := yr % 400
  let mp := (m + 9) % 12
  let doy := (153 * mp + 2) / 5 + (d - 1)
  let doe := yoe * 365 + yoe / 4 - yoe / 100 + doy
  era * 146097 + doe

/-- Inverse of `daysFromCivilNat`. -/
def civilFromDaysNat (z : Nat) : Nat × Nat × Nat :=
  let era := z / 146097
  let doe := z % 146097
  let yoe := (doe - doe / 1460 + doe / 36524 - doe / 146096) / 365
  let y := yoe + era * 400
  let doy := doe - (365 * yoe + yoe / 4 - yoe / 100)
  let mp := (5 * doy + 2) / 153
  let d := doy - (153 * mp + 2) / 5 + 1
  let m := if mp < 10 then mp + 3 else mp - 9
  (if m ≤ 2 then y + 1 else y, m, d)

/-- Wall-clock shift of a datetime by a whole number of minutes, preserving
seconds, microseconds and the offset field (Python datetime arithmetic on a
fixed-offset datetime is plain wall-clock arithmetic). -/
def addMinutesWallClock (dt : PyDateTime) (delta : Int) : PyDateTime :=
  let total : Int :=
    ((daysFromCivilNat dt.year dt.month dt.day) * 1440 + dt.hour * 60 + dt.minute : Nat) + delta
  let tn := total.toNat
  let c := civilFromDaysNat (tn / 1440)
  ⟨c.1, c.2.1, c.2.2, (tn % 1440) / 60, tn % 60, dt.second, dt.micro, dt.tzOffset⟩

/-- Model of `start + timedelta(hours=1)` (line 193 of `src/app.py`). -/
def addOneHour (dt : PyDateTime) : PyDateTime :=
  addMinutesWallClock dt 60

/-- Modelled from the spec: re-expression of a zone-qualified timestamp in
the fixed target zone Asia/Kolkata (UTC+05:30), as §4.4 of the spec demands
of validated timestamps.  `src/app.py` contains no such conversion, so this
definition follows the spec words and exists only to compare the code's
behaviour against them.  An aware datetime is shifted to the +05:30 wall
clock; a naive one merely receives the offset. -/
def astimezoneIST (dt : PyDateTime) : PyDateTime :=
  match dt.tzOffset with
  | Option.some o =>
    let shifted := addMinutesWallClock dt (330 - o)
    ⟨shifted.year, shifted.month, shifted.day, shifted.hour, shifted.minute,
      shifted.second, shifted.micro, Option.some 330⟩
  | Option.none =>
    ⟨dt.year, dt.month, dt.day, dt.hour, dt.minute, dt.second, dt.micro, Option.some 330⟩

/-- Standard base64 alphabet. -/
def base64Alphabet : List Char :=
  "ABCDEFGHIJKLMNOPQRSTUVWXYZabcdefghijklmnopqrstuvwxyz0123456789+/".toList

def b64Char (n : Nat) : Char := base64Alphabet.getD n '?'

/-- Standard base64 encoding of a byte list (bytes are naturals < 256),
modelling `base64.b64encode(image_bytes).decode()`. -/
def base64EncodeList : List Nat → List Char
  | [] => []
  | [b1] => [b64Char (b1 / 4), b64Char (b1 % 4 * 16), '=', '=']
  | [b1, b2] =>
    [b64Char (b1 / 4), b64Char (b1 % 4 * 16 + b2 / 16), b64Char (b2 % 16 * 4), '=']
  | b1 :: b2 :: b3 :: rest =>
    b64Char (b1 / 4) :: b64Char (b1 % 4 * 16 + b2 / 16) ::
    b64Char (b2 % 16 * 4 + b3 / 64) :: b64Char (b3 % 64) :: base64EncodeList rest

def base64Encode (bs : List Nat) : String := String.mk (base64EncodeList bs)

/-- `LOCAL_TIMEZONE.zone` in `src/app.py`. -/
def localTimezoneName : String := "Asia/Kolkata"

/-- The instruction prompt built in `parse_input` (src/app.py lines 43-53),
with `current_time` already formatted by the caller. -/
def promptText (current_time : String) : String :=
  "Current datetime: " ++ current_time ++ " (" ++ localTimezoneName ++ ")\n" ++
  "Analyze this input and return JSON with separate 'events' and 'tasks' lists.\n" ++
  "For events include: summary, start_time (ISO8601 with timezone), end_time (ISO8601 with timezone), description.\n" ++
  "For tasks include: title, due (ISO8601 with timezone), notes.\n" ++
  "Rules:\n" ++
  "1. Convert relative times to absolute datetimes\n" ++
  "2. Assume 1-hour duration for events without end_time\n" ++
  "3. Use timezone: Asia/Kolkata (IST)\n" ++
  "4. Format response as: ```json\x7b...\x7d```\n"

/-- The `parts` list built in `parse_input` (src/app.py lines 55-65): the
prompt part, then the text part when `text` is truthy (a non-empty string),
then the inline image part when `image_bytes` is truthy (non-empty bytes). -/
def buildParts (current_time : String) (text : Option String)
    (image_bytes : Option (List Nat)) : List PyVal :=
  let parts := [PyVal.obj [("text", .str (promptText current_time))]]
  let parts :=
    match text with
    | Option.some t =>
      if t = "" then parts else parts ++ [PyVal.obj [("text", .str ("Input text: " ++ t))]]
    | Option.none => parts
  match image_bytes with
  | Option.some bs =>
    if bs.isEmpty then parts
    else parts ++ [PyVal.obj [("inline_data",
      .obj [("mime_type", .str "image/jpeg"), ("data", .str (base64Encode bs))])]]
  | Option.none => parts

/-- The request payload of `parse_input` (src/app.py line 67):
`\x7b"contents": [\x7b"parts": parts\x7d]\x7d`. -/
def buildPayload (current_time : String) (text : Option String)
    (image_bytes : Option (List Nat)) : PyVal :=
  .obj [("contents", .arr [.obj [("parts", .arr (buildParts current_time text image_bytes))]])]

/-- Index of the first occurrence of `pat` in a character list. -/
def findSub (pat : List Char) : List Char → Option Nat
  | [] => if pat.isEmpty then Option.some 0 else Option.none
  | c :: rest =>
    if pat.isPrefixOf (c :: rest) then Option.some 0
    else (findSub pat rest).map (· + 1)

/-- Python `\s` class as used by `re` and by `str.strip()` on ASCII text. -/
def isPySpace (c : Char) : Bool :=
  c = ' ' ∨ c = '\t' ∨ c = '\n' ∨ c = '\r' ∨ c = '\x0b' ∨ c = '\x0c'

/-- Python `str.strip()`. -/
def pyStrip (cs : List Char) : List Char :=
  ((cs.dropWhile isPySpace).reverse.dropWhile isPySpace).reverse

/-- Model of `re.search(r'```json\s*(.*?)\s*```', output_text, re.DOTALL)`
followed by `.group(1).strip()` (src/app.py lines 75-76).  The leftmost match
of that pattern starts at the first occurrence of ```json and its lazy group,
double-stripped by the `\s*` borders and the subsequent `.strip()`, is the
stripped text between that opening and the next ``` after it; when the first
occurrence of ```json has no ``` after it, no later start can match either,
because every later occurrence of ```json itself contains a closing ``` for
the first. -/
def findFencedJson (out : String) : Option String :=
  let cs := out.toList
  match findSub ("```json".toList) cs with
  | Option.none => Option.none
  | Option.some p =>
    let after := cs.drop (p + 7)
    match findSub ("```".toList) after with
    | Option.none => Option.none
    | Option.some q => Option.some (String.mk (pyStrip (after.take q)))

/-- Outcome of `requests.post(GEMINI_API_ENDPOINT, json=payload, timeout=30)`:
either the call raised (connection error, timeout), or a response arrived with
a status code and a body whose JSON decoding (`response.json()`) succeeded or
raised. -/
inductive HttpOutcome where
  | transportError : String → HttpOutcome
  | response : Nat → Except String PyVal → HttpOutcome

/-- The explicitly empty batch `\x7b"events": [], "tasks": []\x7d` returned by
`parse_input` on every failure path (src/app.py lines 76 and 80). -/
def emptyBatch : PyVal := .obj [("events", .arr []), ("tasks", .arr [])]

/-- `response.raise_for_status()`: raises exactly for client-error (4xx) and
server-error (5xx) status codes. -/
def raiseForStatus (status : Nat) : Except String Unit :=
  if 400 ≤ status ∧ status < 600 then Except.error "HTTPError" else Except.ok ()

/-- `result["candidates"][0]["content"]["parts"][0]["text"]` (src/app.py line
74), with the requirement that the extracted value be a string (otherwise the
subsequent `re.search` raises TypeError). -/
def extractCandidateText (result : PyVal) : Except String String := do
  let c ← pySubscriptKey result "candidates"
  let c0 ← pySubscriptIdx c 0
  let ct ← pySubscriptKey c0 "content"
  let ps ← pySubscriptKey ct "parts"
  let p0 ← pySubscriptIdx ps 0
  let t ← pySubscriptKey p0 "text"
  match t with
  | .str s => Except.ok s
  | _ => Except.error "TypeError: expected string or bytes-like object"

/-- The body of the `try` block of `parse_input` (src/app.py lines 69-76)
after the request is issued, parameterised by the abstract JSON decoder `dec`
modelling `json.loads`.  Note the asymmetry faithful to line 76: a missing
fenced block yields the empty batch via the normal path, while a decoder
failure raises and is caught by the handler. -/
def parseInputTry (dec : String → Except String PyVal) (http : HttpOutcome) :
    Except String PyVal :=
  match http with
  | .transportError msg => Except.error msg
  | .response status body =>
    match raiseForStatus status with
    | Except.error e => Except.error e
    | Except.ok _ =>
      match body with
      | Except.error e => Except.error e
      | Except.ok result =>
        match extractCandidateText result with
        | Except.error e => Except.error e
        | Except.ok output_text =>
          match findFencedJson output_text with
          | Option.some payload => dec payload
          | Option.none => Except.ok emptyBatch

/-- Model of `parse_input` (src/app.py lines 39-80) from the point the HTTP
request is made: the `except Exception` handler converts every raised error
into the explicitly empty batch.  As a total function it can raise nothing to
its caller. -/
def parse_input (dec : String → Except String PyVal) (http : HttpOutcome) : PyVal :=
  match parseInputTry dec http with
  | Except.ok v => v
  | Except.error _ => emptyBatch

/-- Request body of `services["calendar"].events().insert` (src/app.py lines
197-202): summary and description are passed through as decoded values, start
and end carry an ISO dateTime string and the fixed literal timeZone label. -/
structure EventBody where
  summary : PyVal
  description : PyVal
  startDateTime : String
  startTimeZone : String
  endDateTime : String
  endTimeZone : String

/-- Request body of `services["tasks"].tasks().insert` (src/app.py lines
219-223). -/
structure TaskBody where
  title : PyVal
  notes : PyVal
  due : PyVal

/-- One backend call issued by the commit loops.  The script issues only
insert calls: no update or delete operation exists, so no rollback of an
already committed item is even expressible. -/
inductive CommitCall where
  | insertEvent : EventBody → CommitCall
  | insertTask : TaskBody → CommitCall

/-- Oracle for the two Google backends: each insert either returns the
created resource (a decoded JSON object) or raises. -/
structure Services where
  insertEvent : EventBody → Except String PyVal
  insertTask : TaskBody → Except String PyVal

/-- One entry of the `results` list: the strings
`"✅ Event created: ..."` / `"❌ Event failed: ..."` /
`"✅ Task created: ..."` / `"❌ Task failed: ..."` appended in the two commit
loops, abstracted into a tagged value. -/
inductive ResultEntry where
  | eventCreated : PyVal → ResultEntry
  | eventFailed : String → ResultEntry
  | taskCreated : PyVal → ResultEntry
  | taskFailed : String → ResultEntry

def ResultEntry.isFailure : ResultEntry → Bool
  | .eventFailed _ => true
  | .taskFailed _ => true
  | _ => false

/-- The value of `event.get("end_time") or (start + timedelta(hours=1))` on
line 193: the decoded `end_time` when truthy, otherwise the datetime object
`start + timedelta(hours=1)`. -/
inductive EndTimeArg where
  | fromJson : PyVal → EndTimeArg
  | fromDatetime : PyDateTime → EndTimeArg

def endTimeArg (fs : List (String × PyVal)) (start : PyDateTime) : EndTimeArg :=
  let e := pyGetD fs "end_time" .none
  if pyTruthy e then .fromJson e else .fromDatetime (addOneHour start)

/-- `datetime.fromisoformat` applied to that value: a datetime object is not
a string, so the synthesized-end-time branch always raises TypeError. -/
def fromisoformatEndArg : EndTimeArg → Except String PyDateTime
  | .fromJson v => fromisoformatVal v
  | .fromDatetime _ => Except.error "TypeError: fromisoformat: argument must be str"

/-- One iteration of the event commit loop (src/app.py lines 190-211): the
`try` body in evaluation order, every raised error caught into a single
failed entry; the call list records whether the insert was issued. -/
def commitEvent (svc : Services) (event : PyVal) : ResultEntry × List CommitCall :=
  match event with
  | .obj fs =>
    match pyLookup fs "start_time" with
    | Option.none => (.eventFailed "KeyError: start_time", [])
    | Option.some stv =>
      match fromisoformatVal stv with
      | Except.error e => (.eventFailed e, [])
      | Except.ok start =>
        match fromisoformatEndArg (endTimeArg fs start) with
        | Except.error e => (.eventFailed e, [])
        | Except.ok endDt =>
          match pyLookup fs "summary" with
          | Option.none => (.eventFailed "KeyError: summary", [])
          | Option.some summ =>
            let body : EventBody :=
              ⟨summ, pyGetD fs "description" (.str ""),
                isoformat start, "Asia/Kolkata", isoformat endDt, "Asia/Kolkata"⟩
            match svc.insertEvent body with
            | Except.error e => (.eventFailed e, [.insertEvent body])
            | Except.ok created =>
              match pySubscriptKey created "summary" with
              | Except.error e => (.eventFailed e, [.insertEvent body])
              | Except.ok echoed => (.eventCreated echoed, [.insertEvent body])
  | other =>
    match pySubscriptKey other "start_time" with
    | Except.error e => (.eventFailed e, [])
    | Except.ok _ => (.eventFailed "unreachable", [])

/-- The event commit loop: each iteration appends its own entry and continues
with the next event whatever the outcome. -/
def commitEvents (svc : Services) (events : List PyVal) :
    List ResultEntry × List CommitCall :=
  ((events.map (fun e => (commitEvent svc e).1)),
    (events.map (fun e => (commitEvent svc e).2)).flatten)

/-- One iteration of the task commit loop (src/app.py lines 215-231).  The
success message on line 228 re-parses `task['due']` with
`datetime.fromisoformat` after the insert already succeeded and after the
success entry was appended, so a truthy unparseable `due` yields a success
entry followed by a failure entry for the same task. -/
def commitTask (svc : Services) (task : PyVal) : List ResultEntry × List CommitCall :=
  match task with
  | .obj fs =>
    match pyLookup fs "title" with
    | Option.none => ([.taskFailed "KeyError: title"], [])
    | Option.some title =>
      let body : TaskBody :=
        ⟨title, pyGetD fs "notes" (.str ""), pyGetD fs "due" .none⟩
      match svc.insertTask body with
      | Except.error e => ([.taskFailed e], [.insertTask body])
      | Except.ok created =>
        match pySubscriptKey created "title" with
        | Except.error e => ([.taskFailed e], [.insertTask body])
        | Except.ok echoed =>
          let dueVal := pyGetD fs "due" .none
          if pyTruthy dueVal then
            match fromisoformatVal dueVal with
            | Except.error e => ([.taskCreated echoed, .taskFailed e], [.insertTask body])
            | Except.ok _ => ([.taskCreated echoed], [.insertTask body])
          else ([.taskCreated echoed], [.insertTask body])
  | other =>
    match pySubscriptKey other "title" with
    | Except.error e => ([.taskFailed e], [])
    | Except.ok _ => ([.taskFailed "unreachable"], [])

/-- The task commit loop. -/
def commitTasks (svc : Services) (tasks : List PyVal) :
    List ResultEntry × List CommitCall :=
  ((tasks.map (fun t => (commitTask svc t).1)).flatten,
    (tasks.map (fun t => (commitTask svc t).2)).flatten)

/-- Outcome of `get_google_services()` as seen by the handler (src/app.py
lines 175-184): `authRequired` models the `None` return of the cloud branch
(auth link shown), `failure` models a raised exception, `ok` a connected
service pair. -/
inductive ServicesOutcome where
  | authRequired : ServicesOutcome
  | failure : String → ServicesOutcome
  | ok : Services → ServicesOutcome

/-- The user-visible terminal state of one run of the Process Schedule
handler. -/
inductive Outcome where
  | noInputWarning : Outcome
  | parseFailedError : Outcome
  | authRequiredWarning : Outcome
  | connectionFailedError : String → Outcome
  | completed : Outcome
  | crashed : String → Outcome
deriving DecidableEq, Repr

/-- Everything observable about one run of the handler: whether the
extraction request was issued, the backend calls made, the accumulated
per-item results, and the terminal outcome. -/
structure RunTrace where
  extractionAttempted : Bool
  commitCalls : List CommitCall
  results : List ResultEntry
  outcome : Outcome

/-- Model of the Process Schedule handler (src/app.py lines 162-234),
parameterised by the JSON decoder, the raw inputs, the HTTP outcome of the
extraction request, and the outcome of `get_google_services()`.  `st.stop()`
halts the script (Streamlit raises it past the `except Exception` handlers),
so each stop is a terminal outcome.  A non-dict extraction result crashes at
`schedule.get` (AttributeError, line 171); a truthy non-iterable `events` or
`tasks` value crashes at the `for` statement. -/
def processSchedule (dec : String → Except String PyVal) (inputText : String)
    (uploadedFile : Option (List Nat)) (http : HttpOutcome)
    (svcOutcome : ServicesOutcome) : RunTrace :=
  if inputText = "" ∧ uploadedFile = Option.none then
    ⟨false, [], [], .noInputWarning⟩
  else
    let schedule := parse_input dec http
    match schedule with
    | .obj fs =>
      let evVal := pyGetD fs "events" .none
      let tkVal := pyGetD fs "tasks" .none
      if !pyTruthy evVal ∧ !pyTruthy tkVal then ⟨true, [], [], .parseFailedError⟩
      else
        match svcOutcome with
        | .authRequired => ⟨true, [], [], .authRequiredWarning⟩
        | .failure m => ⟨true, [], [], .connectionFailedError m⟩
        | .ok svc =>
          match (if pyTruthy evVal then pyIter evVal else Except.ok []) with
          | Except.error e => ⟨true, [], [], .crashed e⟩
          | Except.ok evItems =>
            let ev := commitEvents svc evItems
            match (if pyTruthy tkVal then pyIter tkVal else Except.ok []) with
            | Except.error e => ⟨true, ev.2, ev.1, .crashed e⟩
            | Except.ok tkItems =>
              let tk := commitTasks svc tkItems
              ⟨true, ev.2 ++ tk.2, ev.1 ++ tk.1, .completed⟩
    | _ => ⟨true, [], [], .crashed "AttributeError: object has no attribute get"⟩

/-- Backend oracle that accepts every insert and echoes the identifying
field, the way the Google API returns the stored resource. -/
def svcEcho : Services :=
  ⟨fun b => Except.ok (.obj [("summary", b.summary)]),
   fun b => Except.ok (.obj [("title", b.title)])⟩

/-- Concrete stand-in for `json.loads` used by witnesses: decodes the one
batch literal the sample model output carries, fails on everything else
exactly as `json.loads` fails on non-JSON text. -/
def decSample : String → Except String PyVal :=
  fun s =>
    if s = "\x7b\"events\": [1], \"tasks\": []\x7d" then
      Except.ok (.obj [("events", .arr [.num 1]), ("tasks", .arr [])])
    else Except.error "json.decoder.JSONDecodeError: Expecting value"

/-- A model reply carrying a fenced json block. -/
def sampleOutputText : String :=
  "Sure! ```json\n\x7b\"events\": [1], \"tasks\": []\x7d\n```"

/-- A well-formed Gemini response envelope around a model reply. -/
def mkEnvelope (t : String) : PyVal :=
  .obj [("candidates", .arr [.obj [("content", .obj [("parts", .arr [.obj [("text", .str t)]])])]])]

def sampleEnvelope : PyVal := mkEnvelope sampleOutputText

/-- An event record with every field present. -/
def mkEvt (s st en : String) : PyVal :=
  .obj [("summary", .str s), ("start_time", .str st), ("end_time", .str en)]

/-- Backend oracle that rejects exactly the event titled `Event two`,
simulating a backend error on the second item of the three-event batch. -/
def svcFailSecond : Services :=
  ⟨fun b => match b.summary with
    | .str s =>
      if s = "Event two" then Except.error "simulated backend error"
      else Except.ok (.obj [("summary", b.summary)])
    | _ => Except.ok (.obj [("summary", b.summary)]),
   fun b => Except.ok (.obj [("title", b.title)])⟩

def evtOne : PyVal := mkEvt "Event one" "2024-03-11T13:00:00+05:30" "2024-03-11T14:00:00+05:30"

def threeEvents : List PyVal :=
  [evtOne,
   mkEvt "Event two" "2024-03-11T15:00:00+05:30" "2024-03-11T16:00:00+05:30",
   mkEvt "Event three" "2024-03-11T17:00:00+05:30" "2024-03-11T18:00:00+05:30"]

/-- The C1 failing input: a raw event with a valid `start_time` and no
`end_time` at all. -/
def evtNoEnd : PyVal :=
  .obj [("summary", .str "Lunch with Sam"), ("start_time", .str "2024-03-11T13:00:00+05:30")]

/-- An event record missing the required `summary` field. -/
def evtNoSummary : PyVal :=
  .obj [("start_time", .str "2024-03-11T13:00:00+05:30"),
        ("end_time", .str "2024-03-11T14:00:00+05:30")]

def goodTask : PyVal :=
  .obj [("title", .str "Buy milk"), ("due", .str "2024-03-12T09:00:00+05:30")]

/-- A task record missing the required `title` field. -/
def taskNoTitle : PyVal := .obj [("notes", .str "n")]

/-- The extraction-failure condition of the (amended) C2 claim: transport
error, 4xx/5xx status, undecodable body, malformed response envelope, no
fenced json block, or a fenced block whose contents the JSON decoder
rejects. -/
def extractionFailure (dec : String → Except String PyVal) (http : HttpOutcome) : Bool :=
  match http with
  | .transportError _ => true
  | .response status body =>
    if 400 ≤ status ∧ status < 600 then true
    else
      match body with
      | Except.error _ => true
      | Except.ok j =>
        match extractCandidateText j with
        | Except.error _ => true
        | Except.ok out =>
          match findFencedJson out with
          | Option.none => true
          | Option.some c =>
            match dec c with
            | Except.error _ => true
            | Except.ok _ => false

/-- The handler's empty-batch test (src/app.py line 171) as a predicate on
the decoded schedule: only a dict can reach it without crashing, and both
`events` and `tasks` must be falsy. -/
def scheduleEmptyObj : PyVal → Bool
  | .obj fs => !pyTruthy (pyGetD fs "events" .none) && !pyTruthy (pyGetD fs "tasks" .none)
  | _ => false

/-- A decoded schedule that passes the empty-batch test: a dict with a
truthy `events` or `tasks` entry. -/
def scheduleNonEmptyObj : PyVal → Bool
  | .obj fs => pyTruthy (pyGetD fs "events" .none) || pyTruthy (pyGetD fs "tasks" .none)
  | _ => false

/-- C1: the claim says an event with a valid `start_time` and no `end_time`
gets `end_time` synthesized as `start_time + 1 hour` and proceeds to a
create-event call.  Evaluating the code at that input: line 193 passes the
datetime object `start + timedelta(hours=1)` to `datetime.fromisoformat`,
which requires a string, so the item fails with a TypeError and no
create-event call is issued.  The second conjunct shows the discarded
fallback value really is start + 1 hour in the same zone, witnessing that
the synthesis was the code author's intent (as the prompt rule `Assume
1-hour duration for events without end_time` also states). -/
theorem c1_missing_end_time_typeerror :
    commitEvent svcEcho evtNoEnd =
      (.eventFailed "TypeError: fromisoformat: argument must be str", []) ∧
    endTimeArg
        [("summary", .str "Lunch with Sam"), ("start_time", .str "2024-03-11T13:00:00+05:30")]
        ⟨2024, 3, 11, 13, 0, 0, 0, Option.some 330⟩ =
      .fromDatetime ⟨2024, 3, 11, 14, 0, 0, 0, Option.some 330⟩ :=
  ⟨rfl, rfl⟩

/-- C8: a run supplying neither text nor image halts at the no-input warning
with the extraction request never issued and no backend call, whatever the
decoder, the network and the credential state would have produced. -/
theorem c8_no_input_halts_before_network (dec : String → Except String PyVal)
    (http : HttpOutcome) (svcOutcome : ServicesOutcome) :
    processSchedule dec "" Option.none http svcOutcome =
      ⟨false, [], [], .noInputWarning⟩ := by
  rfl

/-- C9: the prompt builder is modelled by the pure total function
`buildPayload` of the current time and the normalized input alone, so two
runs with equal `current_time`, equal text and equal image bytes construct
identical payloads; the construction performs no I/O by construction (its
codomain is plain data). -/
theorem c9_prompt_builder_deterministic (ct1 ct2 : String)
    (t1 t2 : Option String) (i1 i2 : Option (List Nat))
    (hct : ct1 = ct2) (ht : t1 = t2) (hi : i1 = i2) :
    buildPayload ct1 t1 i1 = buildPayload ct2 t2 i2 := by
  rw [hct, ht, hi]

theorem c9_prompt_builder_deterministic_witness :
    buildPayload "2024-03-10 09:00 IST" (Option.some "Lunch with Sam tomorrow at 1pm")
        Option.none =
      buildPayload "2024-03-10 09:00 IST" (Option.some "Lunch with Sam tomorrow at 1pm")
        Option.none :=
  c9_prompt_builder_deterministic _ _ _ _ _ _ rfl rfl rfl

/-- C2 counterexample: the claim promises the empty batch for every non-2xx
status, but `raise_for_status` raises only for 4xx/5xx; a 300 response with
a well-formed envelope and a decodable fenced block is processed normally
and returns a non-empty batch. -/
theorem c2_status300_counterexample :
    parse_input decSample (.response 300 (Except.ok sampleEnvelope)) =
      .obj [("events", .arr [.num 1]), ("tasks", .arr [])] ∧
    ¬ parse_input decSample (.response 300 (Except.ok sampleEnvelope)) = emptyBatch ∧
    ¬ (200 ≤ 300 ∧ 300 ≤ 299) := by
  refine ⟨rfl, ?_, by decide⟩
  intro h
  rw [show parse_input decSample (.response 300 (Except.ok sampleEnvelope)) =
      .obj [("events", .arr [.num 1]), ("tasks", .arr [])] from rfl] at h
  simp [emptyBatch] at h

/-- C2 (amended): for every extraction attempt, if the HTTP call raises a
transport error, returns a 4xx or 5xx status, has an undecodable body or a
malformed response envelope, contains no fenced json block, or the block's
contents are not well-formed JSON, the extractor returns the explicitly
empty batch; `parse_input` is a total function, so it raises no unhandled
fault to its caller. -/
theorem c2_extraction_failure_empty_batch (dec : String → Except String PyVal)
    (http : HttpOutcome) (h : extractionFailure dec http = true) :
    parse_input dec http = emptyBatch := by
  cases http with
  | transportError m => rfl
  | response status body =>
    by_cases hs : 400 ≤ status ∧ status < 600
    · simp [parse_input, parseInputTry, raiseForStatus, hs]
    · cases body with
      | error e => simp [parse_input, parseInputTry, raiseForStatus, hs]
      | ok j =>
        cases hct : extractCandidateText j with
        | error e =>
          simp [parse_input, parseInputTry, raiseForStatus, hs, hct]
        | ok out =>
          cases hff : findFencedJson out with
          | none =>
            simp [parse_input, parseInputTry, raiseForStatus, hs, hct, hff]
          | some c =>
            cases hdec : dec c with
            | error e =>
              simp [parse_input, parseInputTry, raiseForStatus, hs, hct, hff, hdec]
            | ok v =>
              exfalso
              unfold extractionFailure at h
              simp [hs, hct, hff, hdec] at h

theorem c2_extraction_failure_empty_batch_witness :
    extractionFailure decSample (.transportError "requests.exceptions.Timeout") = true ∧
    parse_input decSample (.transportError "requests.exceptions.Timeout") = emptyBatch :=
  ⟨rfl, c2_extraction_failure_empty_batch decSample
    (.transportError "requests.exceptions.Timeout") rfl⟩

/-- C3: commit calls are isolated per item.  The first two conjuncts state
it in general: the result entries of any batch decompose around any single
item, each item contributing only its own entries, so one item's failure
neither aborts nor reorders the processing of its siblings.  The remaining
conjuncts instantiate the claim's scenarios: a batch of 3 events whose 2nd
commit call fails yields exactly one failure and two successes in original
order, and a record missing a required field fails individually while its
sibling event or task is still committed (the sibling's insert call is
issued). -/
theorem c3_per_item_isolation :
    (∀ (svc : Services) (pre post : List PyVal) (x : PyVal),
      (commitEvents svc (pre ++ x :: post)).1 =
        (commitEvents svc pre).1 ++ (commitEvent svc x).1 :: (commitEvents svc post).1) ∧
    (∀ (svc : Services) (pre post : List PyVal) (t : PyVal),
      (commitTasks svc (pre ++ t :: post)).1 =
        (commitTasks svc pre).1 ++ ((commitTask svc t).1 ++ (commitTasks svc post).1)) ∧
    (commitEvents svcFailSecond threeEvents).1 =
      [.eventCreated (.str "Event one"), .eventFailed "simulated backend error",
       .eventCreated (.str "Event three")] ∧
    ((commitEvents svcFailSecond threeEvents).1.filter ResultEntry.isFailure).length = 1 ∧
    (commitEvents svcEcho [evtNoSummary, evtOne]).1 =
      [.eventFailed "KeyError: summary", .eventCreated (.str "Event one")] ∧
    ((commitEvents svcEcho [evtNoSummary, evtOne]).2).length = 1 ∧
    (commitTasks svcEcho [taskNoTitle, goodTask]).1 =
      [.taskFailed "KeyError: title", .taskCreated (.str "Buy milk")] ∧
    ((commitTasks svcEcho [taskNoTitle, goodTask]).2).length = 1 := by
  refine ⟨?_, ?_, rfl, rfl, rfl, rfl, rfl, rfl⟩
  · intro svc pre post x
    simp [commitEvents]
  · intro svc pre post t
    simp [commitTasks]

/-- C4: whenever the decoded batch is a dict whose `events` and `tasks`
entries are both falsy (zero events and zero tasks, or the keys missing
altogether), the run shows the failed-to-parse outcome and stops: no commit
call is attempted, and the conclusion holds identically for every
credential-state outcome, so `get_google_services` is never even consulted.
The empty batch is thus reported as an extraction failure, never as an
empty-but-valid result. -/
theorem c4_empty_batch_is_failure (dec : String → Except String PyVal)
    (text : String) (img : Option (List Nat)) (http : HttpOutcome)
    (svcOutcome : ServicesOutcome)
    (hinput : ¬(text = "" ∧ img = Option.none))
    (hempty : scheduleEmptyObj (parse_input dec http) = true) :
    processSchedule dec text img http svcOutcome = ⟨true, [], [], .parseFailedError⟩ := by
  unfold processSchedule
  rw [if_neg hinput]
  cases hp : parse_input dec http with
  | obj fs =>
    rw [hp] at hempty
    unfold scheduleEmptyObj at hempty
    simp only [Bool.and_eq_true] at hempty
    simp [hempty.1, hempty.2]
  | none => rw [hp] at hempty; simp [scheduleEmptyObj] at hempty
  | bool b => rw [hp] at hempty; simp [scheduleEmptyObj] at hempty
  | num n => rw [hp] at hempty; simp [scheduleEmptyObj] at hempty
  | str s => rw [hp] at hempty; simp [scheduleEmptyObj] at hempty
  | arr xs => rw [hp] at hempty; simp [scheduleEmptyObj] at hempty

theorem c4_empty_batch_is_failure_witness :
    ¬(("hello" : String) = "" ∧ (Option.none : Option (List Nat)) = Option.none) ∧
    scheduleEmptyObj (parse_input decSample (.transportError "timeout")) = true ∧
    processSchedule decSample "hello" Option.none (.transportError "timeout") .authRequired =
      ⟨true, [], [], .parseFailedError⟩ :=
  ⟨by decide, rfl, c4_empty_batch_is_failure decSample "hello" Option.none
    (.transportError "timeout") .authRequired (by decide) rfl⟩

/-- C5: when the run reaches the committer stage with a non-empty batch but
no valid backend credential is available, the whole batch is aborted before
any item is attempted: zero commit calls are issued, the results list stays
empty, and a single authentication-failure outcome is reported (the
authenticate-first warning when `get_google_services` returns None, the
connection-failed error when it raises). -/
theorem c5_no_credential_aborts_batch (dec : String → Except String PyVal)
    (text : String) (img : Option (List Nat)) (http : HttpOutcome)
    (hinput : ¬(text = "" ∧ img = Option.none))
    (hbatch : scheduleNonEmptyObj (parse_input dec http) = true) :
    processSchedule dec text img http .authRequired =
      ⟨true, [], [], .authRequiredWarning⟩ ∧
    (∀ m, processSchedule dec text img http (.failure m) =
      ⟨true, [], [], .connectionFailedError m⟩) := by
  constructor
  · unfold processSchedule
    rw [if_neg hinput]
    cases hp : parse_input dec http with
    | obj fs =>
      rw [hp] at hbatch
      unfold scheduleNonEmptyObj at hbatch
      simp only [Bool.or_eq_true] at hbatch
      rcases hbatch with h | h
      · simp [h]
      · simp [h]
    | none => rw [hp] at hbatch; simp [scheduleNonEmptyObj] at hbatch
    | bool b => rw [hp] at hbatch; simp [scheduleNonEmptyObj] at hbatch
    | num n => rw [hp] at hbatch; simp [scheduleNonEmptyObj] at hbatch
    | str s => rw [hp] at hbatch; simp [scheduleNonEmptyObj] at hbatch
    | arr xs => rw [hp] at hbatch; simp [scheduleNonEmptyObj] at hbatch
  · intro m
    unfold processSchedule
    rw [if_neg hinput]
    cases hp : parse_input dec http with
    | obj fs =>
      rw [hp] at hbatch
      unfold scheduleNonEmptyObj at hbatch
      simp only [Bool.or_eq_true] at hbatch
      rcases hbatch with h | h
      · simp [h]
      · simp [h]
    | none => rw [hp] at hbatch; simp [scheduleNonEmptyObj] at hbatch
    | bool b => rw [hp] at hbatch; simp [scheduleNonEmptyObj] at hbatch
    | num n => rw [hp] at hbatch; simp [scheduleNonEmptyObj] at hbatch
    | str s => rw [hp] at hbatch; simp [scheduleNonEmptyObj] at hbatch
    | arr xs => rw [hp] at hbatch; simp [scheduleNonEmptyObj] at hbatch

theorem c5_no_credential_aborts_batch_witness :
    scheduleNonEmptyObj (parse_input decSample (.response 200 (Except.ok sampleEnvelope))) =
      true ∧
    processSchedule decSample "hello" Option.none (.response 200 (Except.ok sampleEnvelope))
        .authRequired =
      ⟨true, [], [], .authRequiredWarning⟩ :=
  ⟨rfl, (c5_no_credential_aborts_batch decSample "hello" Option.none
    (.response 200 (Except.ok sampleEnvelope)) (by decide) rfl).1⟩

def evtUTCFields : List (String × PyVal) :=
  [("summary", .str "Standup"), ("start_time", .str "2024-03-11T07:30:00+00:00"),
   ("end_time", .str "2024-03-11T08:00:00+00:00")]

/-- An event whose timestamps arrive with UTC offsets. -/
def evtUTC : PyVal := .obj evtUTCFields

def taskUTCFields : List (String × PyVal) :=
  [("title", .str "Report"), ("due", .str "2024-03-11T07:30:00+00:00")]

def taskUTC : PyVal := .obj taskUTCFields

def utcStart : PyDateTime := ⟨2024, 3, 11, 7, 30, 0, 0, Option.some 0⟩

def utcEnd : PyDateTime := ⟨2024, 3, 11, 8, 0, 0, 0, Option.some 0⟩

/-- C6 counterexample: the claim says all timestamps are re-expressed in the
fixed target zone (Asia/Kolkata) before being handed to the backend.  For an
event supplied with UTC offsets, the create-event call carries the original
`+00:00` wall-clock strings — only the constant timeZone label names
Asia/Kolkata — which differ from the IST re-expression the spec words demand
(computed by `astimezoneIST`); and the task's `due` is handed to the backend
verbatim, unparsed and unconverted. -/
theorem c6_no_zone_conversion_counterexample :
    (commitEvent svcEcho evtUTC).2 =
      [.insertEvent ⟨.str "Standup", .str "", "2024-03-11T07:30:00+00:00", "Asia/Kolkata",
        "2024-03-11T08:00:00+00:00", "Asia/Kolkata"⟩] ∧
    fromisoformatStr "2024-03-11T07:30:00+00:00" = Except.ok utcStart ∧
    isoformat (astimezoneIST utcStart) = "2024-03-11T13:00:00+05:30" ∧
    ¬ ("2024-03-11T07:30:00+00:00" : String) = "2024-03-11T13:00:00+05:30" ∧
    (commitTask svcEcho taskUTC).2 =
      [.insertTask ⟨.str "Report", .str "", .str "2024-03-11T07:30:00+00:00"⟩] :=
  ⟨rfl, rfl, rfl, by decide, rfl⟩

/-- C6 (amended): timestamps are passed through, not converted.  For any
event record whose `start_time` parses and whose truthy `end_time` parses,
the create-event call carries exactly the re-serialized parsed datetimes —
original UTC offsets preserved — plus the constant timeZone label
Asia/Kolkata; for any task record with a `title`, the create-task call
carries `due` verbatim as it appears in the record, None when absent, so
tasks without `due` proceed as valid with no deadline. -/
theorem c6_timestamps_passed_through (svc : Services) (fs gs : List (String × PyVal))
    (stv env : PyVal) (st en : PyDateTime) (summ title : PyVal)
    (h1 : pyLookup fs "start_time" = Option.some stv)
    (h2 : fromisoformatVal stv = Except.ok st)
    (h3 : endTimeArg fs st = .fromJson env)
    (h4 : fromisoformatVal env = Except.ok en)
    (h5 : pyLookup fs "summary" = Option.some summ)
    (h6 : pyLookup gs "title" = Option.some title) :
    (commitEvent svc (.obj fs)).2 =
      [.insertEvent ⟨summ, pyGetD fs "description" (.str ""),
        isoformat st, "Asia/Kolkata", isoformat en, "Asia/Kolkata"⟩] ∧
    (commitTask svc (.obj gs)).2 =
      [.insertTask ⟨title, pyGetD gs "notes" (.str ""), pyGetD gs "due" .none⟩] := by
  constructor
  · simp only [commitEvent, h1, h2, h3, fromisoformatEndArg, h4, h5]
    split
    · rfl
    · split <;> rfl
  · simp only [commitTask, h6]
    split
    · rfl
    · split
      · rfl
      · split
        · split <;> rfl
        · rfl

theorem c6_timestamps_passed_through_witness :
    (commitEvent svcEcho (.obj evtUTCFields)).2 =
      [.insertEvent ⟨.str "Standup", pyGetD evtUTCFields "description" (.str ""),
        isoformat utcStart, "Asia/Kolkata", isoformat utcEnd, "Asia/Kolkata"⟩] ∧
    (commitTask svcEcho (.obj taskUTCFields)).2 =
      [.insertTask ⟨.str "Report", pyGetD taskUTCFields "notes" (.str ""),
        pyGetD taskUTCFields "due" .none⟩] :=
  c6_timestamps_passed_through svcEcho evtUTCFields taskUTCFields
    (.str "2024-03-11T07:30:00+00:00") (.str "2024-03-11T08:00:00+00:00")
    utcStart utcEnd (.str "Standup") (.str "Report") rfl rfl rfl rfl rfl rfl

/-- C7: a run that reaches the committer produces the full ordered results
list — all event results first (one entry per event, in batch order), then
all task results (in batch order) — and the commit-call trace is likewise
the event inserts followed by the task inserts.  `CommitCall` has only
insert constructors, so the trace can record no rollback of an
already-committed item when a later one fails. -/
theorem c7_results_order (dec : String → Except String PyVal) (text : String)
    (img : Option (List Nat)) (http : HttpOutcome) (svc : Services)
    (fs : List (String × PyVal)) (evs tks : List PyVal)
    (hinput : ¬(text = "" ∧ img = Option.none))
    (hp : parse_input dec http = .obj fs)
    (hev : pyGetD fs "events" .none = .arr evs)
    (htk : pyGetD fs "tasks" .none = .arr tks)
    (hne : ¬(evs = [] ∧ tks = [])) :
    processSchedule dec text img http (.ok svc) =
      ⟨true, (commitEvents svc evs).2 ++ (commitTasks svc tks).2,
        (commitEvents svc evs).1 ++ (commitTasks svc tks).1, .completed⟩ ∧
    (commitEvents svc evs).1 = evs.map (fun e => (commitEvent svc e).1) ∧
    (commitTasks svc tks).1 = (tks.map (fun t => (commitTask svc t).1)).flatten := by
  refine ⟨?_, rfl, rfl⟩
  unfold processSchedule
  rw [if_neg hinput, hp]
  simp only [hev, htk]
  cases evs with
  | nil =>
    cases tks with
    | nil => exact absurd ⟨rfl, rfl⟩ hne
    | cons t ts => simp [pyTruthy, pyIter, commitEvents, commitTasks]
  | cons e es =>
    cases tks with
    | nil => simp [pyTruthy, pyIter, commitEvents, commitTasks]
    | cons t ts => simp [pyTruthy, pyIter, commitEvents, commitTasks]

def schedSampleFields : List (String × PyVal) :=
  [("events", .arr [evtOne]), ("tasks", .arr [goodTask])]

/-- The JSON serialization of the one-event one-task sample batch, as it
would appear inside the fenced block of a model reply. -/
def schedContent : String :=
  "\x7b\"events\": [\x7b\"summary\": \"Event one\", \"start_time\": \"2024-03-11T13:00:00+05:30\", \"end_time\": \"2024-03-11T14:00:00+05:30\"\x7d], \"tasks\": [\x7b\"title\": \"Buy milk\", \"due\": \"2024-03-12T09:00:00+05:30\"\x7d]\x7d"

/-- Concrete stand-in for `json.loads` decoding the sample batch literal. -/
def decSample2 : String → Except String PyVal := fun s =>
  if s = schedContent then Except.ok (.obj schedSampleFields)
  else Except.error "json.decoder.JSONDecodeError: Expecting value"

def sampleEnvelope2 : PyVal := mkEnvelope ("```json\n" ++ schedContent ++ "\n```")

set_option maxRecDepth 8192 in
theorem c7_results_order_witness :
    parse_input decSample2 (.response 200 (Except.ok sampleEnvelope2)) =
      .obj schedSampleFields ∧
    processSchedule decSample2 "team day" Option.none
        (.response 200 (Except.ok sampleEnvelope2)) (.ok svcEcho) =
      ⟨true, (commitEvents svcEcho [evtOne]).2 ++ (commitTasks svcEcho [goodTask]).2,
        (commitEvents svcEcho [evtOne]).1 ++ (commitTasks svcEcho [goodTask]).1,
        .completed⟩ :=
  ⟨rfl, (c7_results_order decSample2 "team day" Option.none
    (.response 200 (Except.ok sampleEnvelope2)) svcEcho schedSampleFields
    [evtOne] [goodTask] (by decide) rfl rfl rfl (by simp)).1⟩

/-- C10: the extractor performs no schema validation.  Whenever the response
has a non-raising status and a well-formed envelope whose text contains a
fenced json block with decodable contents, `parse_input` returns the decoded
value verbatim, whatever its shape; and the handler's downstream empty-batch
test reads a missing `events` or `tasks` key as `None`, which is exactly as
falsy as an empty list. -/
theorem c10_no_schema_validation
    (dec : String → Except String PyVal) (status : Nat) (j : PyVal)
    (out c : String) (v : PyVal)
    (hs : ¬(400 ≤ status ∧ status < 600))
    (hct : extractCandidateText j = Except.ok out)
    (hff : findFencedJson out = Option.some c)
    (hdec : dec c = Except.ok v) :
    parse_input dec (.response status (Except.ok j)) = v ∧
    (∀ (fs : List (String × PyVal)) (k : String), pyLookup fs k = Option.none →
      pyGetD fs k .none = .none ∧
      pyTruthy (pyGetD fs k .none) = pyTruthy (.arr [])) := by
  constructor
  · simp [parse_input, parseInputTry, raiseForStatus, hs, hct, hff, hdec]
  · intro fs k hk
    unfold pyGetD
    rw [hk]
    exact ⟨rfl, rfl⟩

theorem c10_no_schema_validation_witness :
    findFencedJson sampleOutputText =
      Option.some "\x7b\"events\": [1], \"tasks\": []\x7d" ∧
    parse_input decSample (.response 200 (Except.ok sampleEnvelope)) =
      .obj [("events", .arr [.num 1]), ("tasks", .arr [])] :=
  ⟨rfl, (c10_no_schema_validation decSample 200 sampleEnvelope sampleOutputText
    "\x7b\"events\": [1], \"tasks\": []\x7d"
    (.obj [("events", .arr [.num 1]), ("tasks", .arr [])])
    (by decide) rfl rfl rfl).1⟩
